import Mathlib

/-!
Verification of the VK-Renderer render-graph fragment (Granite).

The definitions below are a shallow embedding of the C++ sources:
* the single-pass-downsample (SPD) helpers of `post/spd.cpp`
  (`supports_single_pass_downsample`, `emit_single_pass_downsample`,
  `setup_depth_hierarchy_pass`),
* the scene-viewer application handlers (`on_swapchain_changed`,
  `render_frame`, `GBufferImpl`),
* the type-erased value holder `util/variant.hpp`,
* a model of the render-graph scheduler, reconstructed from the design
  document because the graph implementation itself is not part of the
  visible sources.

Machine integers are modelled as `Nat` with explicit `% 2 ^ 32` where
unsigned wraparound matters.  Calls into the Vulkan driver are modelled by
the data they consume or produce.
-/

namespace Granite

/-! ## Vulkan constants and basic data (from vulkan headers, as used by the sources) -/

/-- Bit value of VK_SHADER_STAGE_COMPUTE_BIT. -/
def VK_SHADER_STAGE_COMPUTE_BIT : Nat := 0x20

/-- Bit value of VK_SUBGROUP_FEATURE_BASIC_BIT. -/
def VK_SUBGROUP_FEATURE_BASIC_BIT : Nat := 0x1

/-- Bit value of VK_SUBGROUP_FEATURE_QUAD_BIT. -/
def VK_SUBGROUP_FEATURE_QUAD_BIT : Nat := 0x10

/-- Bit value of VK_FORMAT_FEATURE_2_STORAGE_WRITE_WITHOUT_FORMAT_BIT_KHR (64-bit flag set). -/
def VK_FORMAT_FEATURE_2_STORAGE_WRITE_WITHOUT_FORMAT_BIT_KHR : Nat := 0x100000000

/-- Bit value of VK_FORMAT_FEATURE_2_STORAGE_READ_WITHOUT_FORMAT_BIT_KHR (64-bit flag set). -/
def VK_FORMAT_FEATURE_2_STORAGE_READ_WITHOUT_FORMAT_BIT_KHR : Nat := 0x80000000

/-- Bit value of VK_PIPELINE_STAGE_ALL_GRAPHICS_BIT. -/
def VK_PIPELINE_STAGE_ALL_GRAPHICS_BIT : Nat := 0x8000

/-- The Vulkan formats mentioned by the sources (plus a catch-all constructor). -/
inductive VkFormat where
  | R16_SFLOAT
  | B10G11R11_UFLOAT_PACK32
  | R8G8B8A8_SRGB
  | A2B10G10R10_UNORM_PACK32
  | R8G8_UNORM
  | UNDEFINED
  | other (code : Nat)
deriving DecidableEq

/-! ## supports_single_pass_downsample (spd.cpp) -/

/-- VkPhysicalDeviceSubgroupProperties fields read by the sources. -/
structure SubgroupProperties where
  supportedStages : Nat
  supportedOperations : Nat

/-- VkPhysicalDeviceFeatures fields read by the sources. -/
structure EnabledFeatures where
  shaderStorageImageArrayDynamicIndexing : Bool

/-- device.get_device_features() result, restricted to the fields the sources read. -/
structure DeviceFeatures where
  subgroup_properties : SubgroupProperties
  enabled_features : EnabledFeatures

/-- device.get_gpu_properties().limits, restricted to the field the sources read. -/
structure GpuLimits where
  maxComputeWorkGroupSize0 : Nat

/-- The device state consulted by supports_single_pass_downsample.  The result of
device.supports_subgroup_size_log2(true, 2, 7) is a device capability and is carried
as a field. -/
structure DeviceState where
  features : DeviceFeatures
  limits : GpuLimits
  supports_subgroup_size_log2_full_2_7 : Bool

/-- VkFormatProperties3KHR as filled in by device.get_format_properties for the
queried format. -/
structure FormatProperties3 where
  optimalTilingFeatures : Nat

/-- Embedding of supports_single_pass_downsample (spd.cpp lines 31-54).  The
format-properties query is modelled by passing the filled-in structure. -/
def supports_single_pass_downsample (device : DeviceState) (props3 : FormatProperties3) : Bool :=
  let supports_full_group := device.supports_subgroup_size_log2_full_2_7
  let supports_compute :=
    (device.features.subgroup_properties.supportedStages &&& VK_SHADER_STAGE_COMPUTE_BIT) != 0
  if device.limits.maxComputeWorkGroupSize0 < 256 then false
  else if !device.features.enabled_features.shaderStorageImageArrayDynamicIndexing then false
  else if (props3.optimalTilingFeatures &&&
      VK_FORMAT_FEATURE_2_STORAGE_WRITE_WITHOUT_FORMAT_BIT_KHR) == 0 then false
  else if (props3.optimalTilingFeatures &&&
      VK_FORMAT_FEATURE_2_STORAGE_READ_WITHOUT_FORMAT_BIT_KHR) == 0 then false
  else
    let required := VK_SUBGROUP_FEATURE_BASIC_BIT ||| VK_SUBGROUP_FEATURE_QUAD_BIT
    let supports_quad_basic :=
      (device.features.subgroup_properties.supportedOperations &&& required) == required
    supports_full_group && supports_compute && supports_quad_basic

/-! ## emit_single_pass_downsample binding loop (spd.cpp) -/

/-- Embedding of the storage-texture binding index of emit_single_pass_downsample
(spd.cpp line 71): std::min(i, info.num_mips - 1) where num_mips is a 32-bit
unsigned integer, so the subtraction wraps modulo 2^32. -/
def spd_mip_slot_index (num_mips i : Nat) : Nat :=
  min i ((num_mips + 2 ^ 32 - 1) % 2 ^ 32)

/-- Embedding of the binding loop of emit_single_pass_downsample (spd.cpp lines
70-71): for each loop counter i below MaxSPDMips, descriptor slot 2 + i is bound
to the output mip view at array index spd_mip_slot_index num_mips i.  The
constant MaxSPDMips comes from spd.hpp, which is not among the visible sources,
so it is kept as a parameter. -/
def spd_storage_texture_bindings (maxMips num_mips : Nat) : List (Nat × Nat) :=
  (List.range maxMips).map (fun i => (2 + i, spd_mip_slot_index num_mips i))

/-! ## setup_depth_hierarchy_pass (spd.cpp) -/

/-- Modelled from the spec: Util::floor_log2 lives in a utility header that is
not among the visible sources; the design document gives the formula
levels = floor(log2(min(width, height))) + 1, so floor_log2 is the floor of the
base-2 logarithm. -/
def floor_log2 (n : Nat) : Nat := Nat.log 2 n

/-- Resolved dimensions of a graph resource, restricted to the fields the
sources read (render_graph.hpp ResourceDimensions). -/
structure ResourceDimensions where
  width : Nat
  height : Nat
  format : VkFormat
deriving DecidableEq

/-- AttachmentInfo size classes (render_graph.hpp). -/
inductive SizeClass where
  | Absolute
  | SwapchainRelative
  | InputRelative
deriving DecidableEq

/-- AttachmentInfo fields set by setup_depth_hierarchy_pass. -/
structure AttachmentInfo where
  format : VkFormat
  size_relative_name : String
  size_class : SizeClass
  levels : Nat
deriving DecidableEq

/-- Embedding of the attachment declared by setup_depth_hierarchy_pass for its
hierarchical storage-texture output (spd.cpp lines 123-135): format R16_SFLOAT,
input-relative size, and level count floor_log2 (min width height) + 1 of the
input resource's resolved dimensions. -/
def setup_depth_hierarchy_att (input : String) (dim : ResourceDimensions) : AttachmentInfo :=
  { format := VkFormat.R16_SFLOAT
    size_relative_name := input
    size_class := SizeClass.InputRelative
    levels := floor_log2 (min dim.width dim.height) + 1 }

/-- Vulkan ImageViewCreateInfo fields set by the depth-hierarchy build callback
(spd.cpp lines 150-159); the image pointer is implicit and the view type is
always 2D. -/
structure ImageViewCreateInfo where
  base_level : Nat
  levels : Nat
  layers : Nat
  format : VkFormat
deriving DecidableEq

/-- Embedding of the per-mip view setup in the depth-hierarchy build callback
(spd.cpp lines 143-164): when the cached view list is empty, one view per level
of the physical output image is created, the i-th addressing base mip i with 1
level, 1 layer, format R16_SFLOAT; otherwise the cached list is kept as is. -/
def build_depth_hierarchy_views (imageLevels : Nat) (cached : List ImageViewCreateInfo) :
    List ImageViewCreateInfo :=
  if cached.isEmpty then
    (List.range imageLevels).map (fun i =>
      { base_level := i, levels := 1, layers := 1, format := VkFormat.R16_SFLOAT })
  else
    cached

/-! ## GBufferImpl clear values (viewer application) -/

/-- VkClearColorValue, modelled through its float32 view with exact rational
components (the code only ever stores the constant 0). -/
structure VkClearColorValue where
  float32_0 : Rat
  float32_1 : Rat
  float32_2 : Rat
  float32_3 : Rat
deriving DecidableEq

/-- VkClearDepthStencilValue with an exact rational depth (the code only ever
stores the constant 1.0). -/
structure VkClearDepthStencilValue where
  depth : Rat
  stencil : Nat
deriving DecidableEq

/-- Embedding of SceneViewerApplication::GBufferImpl::get_clear_color.  The
output pointer is modelled as an optional cell: the pair returned is the
function result together with the cell contents afterwards; a null pointer
(none) has no cell to update. -/
def GBufferImpl_get_clear_color (_attachment : Nat) (value : Option VkClearColorValue) :
    Bool × Option VkClearColorValue :=
  match value with
  | some _ => (true, some { float32_0 := 0, float32_1 := 0, float32_2 := 0, float32_3 := 0 })
  | none => (true, none)

/-- Embedding of SceneViewerApplication::GBufferImpl::get_clear_depth_stencil,
with the output pointer modelled as in GBufferImpl_get_clear_color; the code
writes stencil 0 and depth 1.0 through a non-null pointer. -/
def GBufferImpl_get_clear_depth_stencil (value : Option VkClearDepthStencilValue) :
    Bool × Option VkClearDepthStencilValue :=
  match value with
  | some _ => (true, some { depth := 1, stencil := 0 })
  | none => (true, none)

/-! ## The Variant holder (util/variant.hpp) -/

/-- Embedding of Granite::Variant: a type-erased box holding at most one value
of an arbitrary type; the null unique_ptr of a default-constructed Variant is
the none case. -/
structure Variant where
  value : Option ((α : Type) × α)

/-- A default-constructed Variant: the unique_ptr holder is null. -/
def Variant.empty : Variant := { value := none }

/-- Embedding of Variant::set: replace the holder with a fresh HolderValue
boxing v. -/
def Variant.set {α : Type} (_var : Variant) (v : α) : Variant :=
  { value := some ⟨α, v⟩ }

section VariantGet

open Classical

/-- Embedding of Variant::get: the C++ code performs an unchecked
static_cast of the holder to HolderValue of the requested type and dereferences
it; the cases where that cast is invalid (empty holder, or a holder of a
different type) are undefined behaviour and modelled as none.  The type-equality
test is classical, mirroring that the distinction exists only in the model. -/
noncomputable def Variant.get (α : Type) (var : Variant) : Option α :=
  match var.value with
  | none => none
  | some s => if h : s.1 = α then some (cast h s.2) else none

end VariantGet

/-! ## Application traces (viewer application) -/

/-- The graph-facing operations performed by
SceneViewerApplication::on_swapchain_changed, in the order the handler issues
them.  Pass-declaration calls carry the pass name, resource name and the data
the code passes. -/
inductive GraphOp where
  | reset
  | setBackbufferDimensions (dim : ResourceDimensions)
  | setBackbufferSource (name : String)
  | addPass (name : String) (stages : Nat)
  | addColorOutput (passName resName : String) (format : VkFormat) (aliasInput : Option String)
  | setDepthStencilOutput (passName resName : String) (format : VkFormat)
  | addAttachmentInput (passName resName : String)
  | setDepthStencilInput (passName resName : String)
  | setImplementation (passName : String)
  | setupHdrPostprocess (inputName outputName : String)
  | bake
  | log
deriving DecidableEq

/-- Embedding of the backbuffer-source choice of on_swapchain_changed (line
362-363): getenv("GRANITE_SURFACE") modelled as an optional string; the fixed
name "backbuffer" is used when the variable is unset. -/
def backbuffer_source_name (granite_surface : Option String) : String :=
  match granite_surface with
  | some s => s
  | none => "backbuffer"

/-- True on the pass/resource declaration operations (the add_*/set_* calls
between set_backbuffer_source and bake in on_swapchain_changed). -/
def GraphOp.isDeclaration : GraphOp → Bool
  | GraphOp.addPass _ _ => true
  | GraphOp.addColorOutput _ _ _ _ => true
  | GraphOp.setDepthStencilOutput _ _ _ => true
  | GraphOp.addAttachmentInput _ _ => true
  | GraphOp.setDepthStencilInput _ _ => true
  | GraphOp.setImplementation _ => true
  | GraphOp.setupHdrPostprocess _ _ => true
  | _ => false

/-- Embedding of SceneViewerApplication::on_swapchain_changed (lines 351-398)
as the trace of graph operations it performs: granite_surface is the value of
the GRANITE_SURFACE environment variable, swapDim the new swap-chain extent and
format, and depthFormat the device's default depth-stencil format.  The
AttachmentInfo argument values other than the formats do not order the trace
and are elided; the default-constructed backbuffer AttachmentInfo has format
UNDEFINED. -/
def on_swapchain_changed (granite_surface : Option String) (swapDim : ResourceDimensions)
    (depthFormat : VkFormat) : List GraphOp :=
  [GraphOp.reset,
   GraphOp.setBackbufferDimensions swapDim,
   GraphOp.setBackbufferSource (backbuffer_source_name granite_surface),
   GraphOp.addPass "gbuffer" VK_PIPELINE_STAGE_ALL_GRAPHICS_BIT,
   GraphOp.addColorOutput "gbuffer" "emissive" VkFormat.B10G11R11_UFLOAT_PACK32 none,
   GraphOp.addColorOutput "gbuffer" "albedo" VkFormat.R8G8B8A8_SRGB none,
   GraphOp.addColorOutput "gbuffer" "normal" VkFormat.A2B10G10R10_UNORM_PACK32 none,
   GraphOp.addColorOutput "gbuffer" "pbr" VkFormat.R8G8_UNORM none,
   GraphOp.setDepthStencilOutput "gbuffer" "depth" depthFormat,
   GraphOp.setImplementation "gbuffer",
   GraphOp.addPass "lighting" VK_PIPELINE_STAGE_ALL_GRAPHICS_BIT,
   GraphOp.addColorOutput "lighting" "HDR" VkFormat.B10G11R11_UFLOAT_PACK32 (some "emissive"),
   GraphOp.addAttachmentInput "lighting" "albedo",
   GraphOp.addAttachmentInput "lighting" "normal",
   GraphOp.addAttachmentInput "lighting" "pbr",
   GraphOp.addAttachmentInput "lighting" "depth",
   GraphOp.setDepthStencilInput "lighting" "depth",
   GraphOp.setImplementation "lighting",
   GraphOp.setupHdrPostprocess "HDR" "tonemapped",
   GraphOp.addPass "ui" VK_PIPELINE_STAGE_ALL_GRAPHICS_BIT,
   GraphOp.addColorOutput "ui" "backbuffer" VkFormat.UNDEFINED (some "tonemapped"),
   GraphOp.setImplementation "ui",
   GraphOp.bake,
   GraphOp.log]

/-- The declaration segment of the on_swapchain_changed trace (everything
between set_backbuffer_source and bake), used to state its shape. -/
def swapchain_declaration_ops (depthFormat : VkFormat) : List GraphOp :=
  [GraphOp.addPass "gbuffer" VK_PIPELINE_STAGE_ALL_GRAPHICS_BIT,
   GraphOp.addColorOutput "gbuffer" "emissive" VkFormat.B10G11R11_UFLOAT_PACK32 none,
   GraphOp.addColorOutput "gbuffer" "albedo" VkFormat.R8G8B8A8_SRGB none,
   GraphOp.addColorOutput "gbuffer" "normal" VkFormat.A2B10G10R10_UNORM_PACK32 none,
   GraphOp.addColorOutput "gbuffer" "pbr" VkFormat.R8G8_UNORM none,
   GraphOp.setDepthStencilOutput "gbuffer" "depth" depthFormat,
   GraphOp.setImplementation "gbuffer",
   GraphOp.addPass "lighting" VK_PIPELINE_STAGE_ALL_GRAPHICS_BIT,
   GraphOp.addColorOutput "lighting" "HDR" VkFormat.B10G11R11_UFLOAT_PACK32 (some "emissive"),
   GraphOp.addAttachmentInput "lighting" "albedo",
   GraphOp.addAttachmentInput "lighting" "normal",
   GraphOp.addAttachmentInput "lighting" "pbr",
   GraphOp.addAttachmentInput "lighting" "depth",
   GraphOp.setDepthStencilInput "lighting" "depth",
   GraphOp.setImplementation "lighting",
   GraphOp.setupHdrPostprocess "HDR" "tonemapped",
   GraphOp.addPass "ui" VK_PIPELINE_STAGE_ALL_GRAPHICS_BIT,
   GraphOp.addColorOutput "ui" "backbuffer" VkFormat.UNDEFINED (some "tonemapped"),
   GraphOp.setImplementation "ui"]

/-- The per-frame operations performed by SceneViewerApplication::render_frame,
in order.  Devices and image views are modelled by identifiers; the swap-chain
view passed to setup_attachments is the one obtained from the device. -/
inductive FrameOp where
  | animate
  | setCamera
  | clearVisible
  | windowSetup
  | updateCachedTransforms
  | refreshPerFrame
  | gatherVisibleOpaque
  | gatherBackground
  | rendererBegin
  | pushRenderables
  | setupAttachments (device : Nat) (view : Nat)
  | enqueueRenderPasses (device : Nat)
deriving DecidableEq

/-- Embedding of SceneViewerApplication::render_frame (lines 404-429) as the
trace of operations it performs: device is the WSI device and swapchainView the
view returned by device.get_swapchain_view(). -/
def render_frame (device swapchainView : Nat) : List FrameOp :=
  [FrameOp.animate,
   FrameOp.setCamera,
   FrameOp.clearVisible,
   FrameOp.windowSetup,
   FrameOp.updateCachedTransforms,
   FrameOp.refreshPerFrame,
   FrameOp.gatherVisibleOpaque,
   FrameOp.gatherBackground,
   FrameOp.rendererBegin,
   FrameOp.pushRenderables,
   FrameOp.setupAttachments device swapchainView,
   FrameOp.enqueueRenderPasses device]

/-! ## Render-graph scheduler (modelled from the spec) -/

/-- Modelled from the spec: the render-graph implementation (render_graph.hpp
and render_graph.cpp) is not among the visible sources; a graph is its pass
count (passes indexed 0, 1, ... in declaration order) together with the
declared dependency edges (a, b), meaning pass b consumes a resource pass a
produces, so a must run before b. -/
structure SpecGraph where
  passCount : Nat
  deps : List (Nat × Nat)

/-- The dependency relation of a declared edge list. -/
def depRel (deps : List (Nat × Nat)) (a b : Nat) : Prop := (a, b) ∈ deps

/-- A dependency list is acyclic when no pass transitively depends on itself. -/
def AcyclicDeps (deps : List (Nat × Nat)) : Prop :=
  ∀ v, ¬ Relation.TransGen (depRel deps) v v

/-- Modelled from the spec: a pass is ready when no declared edge brings it a
dependency from a pass that is still unscheduled. -/
def isReady (deps : List (Nat × Nat)) (remaining : List Nat) (v : Nat) : Bool :=
  deps.all (fun e => !(e.2 == v && remaining.contains e.1))

/-- Modelled from the spec: the scheduler picks the first ready pass in
declaration order among the unscheduled ones (the remaining list is kept in
declaration order), which breaks ties by original declaration order. -/
def pickReady (deps : List (Nat × Nat)) (remaining : List Nat) : Option Nat :=
  remaining.find? (isReady deps remaining)

/-- Modelled from the spec: the scheduling loop of bake; each iteration removes
one ready pass, so a fuel of the pass count suffices, and a state where no
unscheduled pass is ready is a cycle, reported as failure (GraphCycleError). -/
def scheduleFuel (deps : List (Nat × Nat)) : Nat → List Nat → Option (List Nat)
  | 0, remaining => if remaining = [] then some [] else none
  | fuel + 1, remaining =>
    if remaining = [] then some []
    else
      match pickReady deps remaining with
      | none => none
      | some v => (scheduleFuel deps fuel (remaining.erase v)).map (fun rest => v :: rest)

/-- Modelled from the spec: bake computes the ExecutionPlan's pass order, a
stable topological sort of the declared dependencies over the passes in
declaration order, failing on a cycle. -/
def bake (g : SpecGraph) : Option (List Nat) :=
  scheduleFuel g.deps g.passCount (List.range g.passCount)

/-! ## Theorems -/

/-- C1: for an input resource whose resolved extent is width w ≥ 1 and height
h ≥ 1, setup_depth_hierarchy_pass declares its hierarchical storage-texture
output with exactly floor_log2 (min w h) + 1 mip levels; for a 513x300 input
the output resolves to 9 levels; the smallest dimension at the last generated
level is still at least 1 texel, and one further level would fall below 1. -/
theorem setup_depth_hierarchy_levels (input : String) (w h : Nat) (fmt : VkFormat)
    (hw : 1 ≤ w) (hh : 1 ≤ h) :
    (setup_depth_hierarchy_att input ⟨w, h, fmt⟩).levels = floor_log2 (min w h) + 1 ∧
    1 ≤ (min w h) >>> ((setup_depth_hierarchy_att input ⟨w, h, fmt⟩).levels - 1) ∧
    (min w h) >>> (setup_depth_hierarchy_att input ⟨w, h, fmt⟩).levels = 0 ∧
    (setup_depth_hierarchy_att input ⟨513, 300, fmt⟩).levels = 9 := by
  have hmin : min w h ≠ 0 := by omega
  have hlevels : (setup_depth_hierarchy_att input ⟨w, h, fmt⟩).levels =
      Nat.log 2 (min w h) + 1 := rfl
  refine ⟨rfl, ?_, ?_, ?_⟩
  · rw [hlevels]
    simp only [Nat.add_sub_cancel, Nat.shiftRight_eq_div_pow]
    exact (Nat.one_le_div_iff (Nat.pos_pow_of_pos _ (by norm_num))).mpr
      (Nat.pow_log_le_self 2 hmin)
  · rw [hlevels, Nat.shiftRight_eq_div_pow]
    exact Nat.div_eq_of_lt (Nat.lt_pow_succ_log_self (by norm_num) _)
  · show Nat.log 2 (min 513 300) + 1 = 9
    have h300 : (min 513 300 : Nat) = 300 := by norm_num
    have hlog : Nat.log 2 300 = 8 :=
      Nat.log_eq_of_pow_le_of_lt_pow (by norm_num : (2 : Nat) ^ 8 ≤ 300) (by norm_num)
    rw [h300, hlog]

/-- Witness for C1 at the 513x300 scenario. -/
theorem setup_depth_hierarchy_levels_witness :
    (setup_depth_hierarchy_att "depth" ⟨513, 300, VkFormat.UNDEFINED⟩).levels =
        floor_log2 (min 513 300) + 1 ∧
    1 ≤ (min 513 300 : Nat) >>>
        ((setup_depth_hierarchy_att "depth" ⟨513, 300, VkFormat.UNDEFINED⟩).levels - 1) ∧
    (min 513 300 : Nat) >>>
        (setup_depth_hierarchy_att "depth" ⟨513, 300, VkFormat.UNDEFINED⟩).levels = 0 ∧
    (setup_depth_hierarchy_att "depth" ⟨513, 300, VkFormat.UNDEFINED⟩).levels = 9 :=
  setup_depth_hierarchy_levels "depth" 513 300 VkFormat.UNDEFINED (by norm_num) (by norm_num)

/-- C2: supports_single_pass_downsample returns true exactly when the device
supports the 2^2..2^7 full-group subgroup size range, the compute stage
supports subgroup operations, maxComputeWorkGroupSize[0] is at least 256,
shaderStorageImageArrayDynamicIndexing is enabled, the format's optimal-tiling
features include storage-write-without-format and storage-read-without-format,
and the supported subgroup operations include BASIC and QUAD. -/
theorem supports_single_pass_downsample_iff (d : DeviceState) (p : FormatProperties3) :
    supports_single_pass_downsample d p = true ↔
      (d.supports_subgroup_size_log2_full_2_7 = true ∧
       d.features.subgroup_properties.supportedStages &&& VK_SHADER_STAGE_COMPUTE_BIT ≠ 0 ∧
       256 ≤ d.limits.maxComputeWorkGroupSize0 ∧
       d.features.enabled_features.shaderStorageImageArrayDynamicIndexing = true ∧
       p.optimalTilingFeatures &&& VK_FORMAT_FEATURE_2_STORAGE_WRITE_WITHOUT_FORMAT_BIT_KHR ≠ 0 ∧
       p.optimalTilingFeatures &&& VK_FORMAT_FEATURE_2_STORAGE_READ_WITHOUT_FORMAT_BIT_KHR ≠ 0 ∧
       d.features.subgroup_properties.supportedOperations &&&
           (VK_SUBGROUP_FEATURE_BASIC_BIT ||| VK_SUBGROUP_FEATURE_QUAD_BIT) =
         VK_SUBGROUP_FEATURE_BASIC_BIT ||| VK_SUBGROUP_FEATURE_QUAD_BIT) := by
  unfold supports_single_pass_downsample
  simp only []
  split_ifs with h1 h2 h3 h4
  · simp only [Bool.false_eq_true, false_iff]
    rintro ⟨-, -, hge, -⟩
    omega
  · rw [Bool.not_eq_true'] at h2
    simp only [Bool.false_eq_true, false_iff]
    rintro ⟨-, -, -, hdyn, -⟩
    rw [h2] at hdyn
    cases hdyn
  · rw [beq_iff_eq] at h3
    simp only [Bool.false_eq_true, false_iff]
    rintro ⟨-, -, -, -, hw, -⟩
    exact hw h3
  · rw [beq_iff_eq] at h4
    simp only [Bool.false_eq_true, false_iff]
    rintro ⟨-, -, -, -, -, hr, -⟩
    exact hr h4
  · have h1' : 256 ≤ d.limits.maxComputeWorkGroupSize0 := Nat.le_of_not_lt h1
    have h2' : d.features.enabled_features.shaderStorageImageArrayDynamicIndexing = true := by
      revert h2
      cases d.features.enabled_features.shaderStorageImageArrayDynamicIndexing <;> simp
    have h3' : p.optimalTilingFeatures &&&
        VK_FORMAT_FEATURE_2_STORAGE_WRITE_WITHOUT_FORMAT_BIT_KHR ≠ 0 := by
      intro hh
      exact h3 (by simp [hh])
    have h4' : p.optimalTilingFeatures &&&
        VK_FORMAT_FEATURE_2_STORAGE_READ_WITHOUT_FORMAT_BIT_KHR ≠ 0 := by
      intro hh
      exact h4 (by simp [hh])
    simp only [Bool.and_eq_true, bne_iff_ne, ne_eq, beq_iff_eq]
    tauto

/-- C3: the depth-hierarchy per-mip views are created only when the cached list
is empty, in which case there is one view per level of the physical output
image, the i-th addressing base mip i with 1 level, 1 layer and format
R16_SFLOAT; a non-empty cached list is returned unchanged. -/
theorem depth_hierarchy_views_cached (imageLevels : Nat)
    (cached : List ImageViewCreateInfo) (i : Nat) :
    (build_depth_hierarchy_views imageLevels []).length = imageLevels ∧
    (i < imageLevels →
      (build_depth_hierarchy_views imageLevels [])[i]? =
        some { base_level := i, levels := 1, layers := 1, format := VkFormat.R16_SFLOAT }) ∧
    (cached ≠ [] → build_depth_hierarchy_views imageLevels cached = cached) := by
  refine ⟨?_, ?_, ?_⟩
  · simp [build_depth_hierarchy_views]
  · intro hi
    simp [build_depth_hierarchy_views, List.getElem?_map, List.getElem?_range, hi]
  · intro hne
    simp [build_depth_hierarchy_views, hne]

/-- Witness for C3 at a physical image with 2 levels and at a cached
single-view list. -/
theorem depth_hierarchy_views_cached_witness :
    (build_depth_hierarchy_views 2 [])[1]? =
      some { base_level := 1, levels := 1, layers := 1, format := VkFormat.R16_SFLOAT } ∧
    build_depth_hierarchy_views 2
        [{ base_level := 0, levels := 1, layers := 1, format := VkFormat.R16_SFLOAT }] =
      [{ base_level := 0, levels := 1, layers := 1, format := VkFormat.R16_SFLOAT }] :=
  ⟨(depth_hierarchy_views_cached 2 [] 1).2.1 (by norm_num),
   (depth_hierarchy_views_cached 2
      [{ base_level := 0, levels := 1, layers := 1, format := VkFormat.R16_SFLOAT }] 1).2.2
      (by simp)⟩

/-- C8: GBufferImpl always provides clear values: get_clear_color returns true
and writes an all-zero color through a non-null pointer, get_clear_depth_stencil
returns true and writes depth 1.0, stencil 0; both return true on a null pointer
and a null pointer leaves no state to change. -/
theorem gbuffer_clear_values (attachment : Nat) (c : Option VkClearColorValue)
    (ds : Option VkClearDepthStencilValue) :
    (GBufferImpl_get_clear_color attachment c).1 = true ∧
    (GBufferImpl_get_clear_depth_stencil ds).1 = true ∧
    (∀ v, c = some v → (GBufferImpl_get_clear_color attachment c).2 =
      some { float32_0 := 0, float32_1 := 0, float32_2 := 0, float32_3 := 0 }) ∧
    (c = none → (GBufferImpl_get_clear_color attachment c).2 = none) ∧
    (∀ v, ds = some v → (GBufferImpl_get_clear_depth_stencil ds).2 =
      some { depth := 1, stencil := 0 }) ∧
    (ds = none → (GBufferImpl_get_clear_depth_stencil ds).2 = none) := by
  refine ⟨?_, ?_, ?_, ?_, ?_, ?_⟩
  · cases c <;> rfl
  · cases ds <;> rfl
  · rintro v rfl; rfl
  · rintro rfl; rfl
  · rintro v rfl; rfl
  · rintro rfl; rfl

/-- Witness for C8 with a non-null color pointer and a null depth pointer. -/
theorem gbuffer_clear_values_witness :
    (GBufferImpl_get_clear_color 0
        (some { float32_0 := 5, float32_1 := 5, float32_2 := 5, float32_3 := 5 })).2 =
      some { float32_0 := 0, float32_1 := 0, float32_2 := 0, float32_3 := 0 } ∧
    (GBufferImpl_get_clear_depth_stencil none).2 = none :=
  ⟨(gbuffer_clear_values 0
      (some { float32_0 := 5, float32_1 := 5, float32_2 := 5, float32_3 := 5 }) none).2.2.1
      _ rfl,
   (gbuffer_clear_values 0
      (some { float32_0 := 5, float32_1 := 5, float32_2 := 5, float32_3 := 5 }) none).2.2.2.2.2
      rfl⟩

/-- C9: for every loop counter i below MaxSPDMips, emit_single_pass_downsample
binds descriptor slot 2 + i to the output mip at index min i (num_mips - 1);
for 1 ≤ num_mips (a 32-bit value) that index is always below num_mips, slots at
or beyond num_mips rebind the last mip, and for num_mips = 0 the unsigned
subtraction wraps to 2^32 - 1 and the resulting index is not within the zero
valid entries. -/
theorem spd_mip_slot_bounds (maxMips num_mips i : Nat)
    (h1 : 1 ≤ num_mips) (h2 : num_mips < 2 ^ 32) :
    ((spd_storage_texture_bindings maxMips num_mips)[i]? =
      if i < maxMips then some (2 + i, spd_mip_slot_index num_mips i) else none) ∧
    spd_mip_slot_index num_mips i = min i (num_mips - 1) ∧
    spd_mip_slot_index num_mips i < num_mips ∧
    (num_mips ≤ i → spd_mip_slot_index num_mips i = num_mips - 1) ∧
    spd_mip_slot_index 0 i = min i (2 ^ 32 - 1) ∧
    ¬ spd_mip_slot_index 0 i < 0 := by
  have hpow : (2 : Nat) ^ 32 = 4294967296 := by norm_num
  have hwrap : (num_mips + 2 ^ 32 - 1) % 2 ^ 32 = num_mips - 1 := by
    rw [hpow] at h2 ⊢
    omega
  have hwrap0 : ((0 : Nat) + 2 ^ 32 - 1) % 2 ^ 32 = 2 ^ 32 - 1 := by
    rw [hpow]
  refine ⟨?_, ?_, ?_, ?_, ?_, ?_⟩
  · by_cases hlt : i < maxMips
    · simp [spd_storage_texture_bindings, List.getElem?_map, List.getElem?_range, hlt]
    · simp [spd_storage_texture_bindings, List.getElem?_map, List.getElem?_range, hlt]
      omega
  · rw [spd_mip_slot_index, hwrap]
  · rw [spd_mip_slot_index, hwrap]
    omega
  · intro hge
    rw [spd_mip_slot_index, hwrap]
    omega
  · rw [spd_mip_slot_index, hwrap0]
  · omega

/-- Witness for C9 at num_mips = 5, i = 7 within a 13-slot loop. -/
theorem spd_mip_slot_bounds_witness :
    ((spd_storage_texture_bindings 13 5)[7]? =
      if 7 < 13 then some (2 + 7, spd_mip_slot_index 5 7) else none) ∧
    spd_mip_slot_index 5 7 = min 7 (5 - 1) ∧
    spd_mip_slot_index 5 7 < 5 ∧
    (5 ≤ 7 → spd_mip_slot_index 5 7 = 5 - 1) ∧
    spd_mip_slot_index 0 7 = min 7 (2 ^ 32 - 1) ∧
    ¬ spd_mip_slot_index 0 7 < 0 :=
  spd_mip_slot_bounds 13 5 7 (by norm_num) (by norm_num)

/-- C10: the Variant holder satisfies the set/get round trip: after set with a
value of type α, get at α returns exactly that value; get on a
default-constructed Variant hits the null holder (no stored value). -/
theorem variant_set_get_roundtrip (α : Type) (v : α) (var : Variant) :
    Variant.get α (Variant.set var v) = some v ∧
    Variant.get α Variant.empty = none := by
  constructor
  · simp [Variant.get, Variant.set, cast_eq]
  · simp [Variant.get, Variant.empty]

/-- C4: the backbuffer source name set by on_swapchain_changed is the value of
the GRANITE_SURFACE environment setting when present and the fixed name
"backbuffer" when unset, and no other name is ever passed to
set_backbuffer_source in the handler's trace. -/
theorem backbuffer_source_choice (granite_surface : Option String)
    (swapDim : ResourceDimensions) (depthFormat : VkFormat) :
    (on_swapchain_changed granite_surface swapDim depthFormat)[2]? =
      some (GraphOp.setBackbufferSource (backbuffer_source_name granite_surface)) ∧
    (∀ s, backbuffer_source_name (some s) = s) ∧
    backbuffer_source_name none = "backbuffer" ∧
    (∀ name, GraphOp.setBackbufferSource name ∈
        on_swapchain_changed granite_surface swapDim depthFormat →
      name = backbuffer_source_name granite_surface) := by
  refine ⟨rfl, fun s => rfl, rfl, ?_⟩
  intro name hmem
  simp [on_swapchain_changed] at hmem
  exact hmem

/-- Witness for C4: with GRANITE_SURFACE set, the name found in the trace is
that setting's value. -/
theorem backbuffer_source_choice_witness :
    "surface0" = backbuffer_source_name (some "surface0") :=
  (backbuffer_source_choice (some "surface0")
      { width := 1920, height := 1080, format := VkFormat.R8G8B8A8_SRGB }
      VkFormat.UNDEFINED).2.2.2 "surface0"
    (by simp [on_swapchain_changed, backbuffer_source_name])

/-- C6: on a swapchain parameter change the handler's trace is exactly reset,
then set_backbuffer_dimensions with the new extent and format, then
set_backbuffer_source, then the pass declarations, then bake (then the log
dump); reset occurs nowhere later, and bake occurs nowhere earlier, so bake is
never reached without the preceding reset. -/
theorem on_swapchain_changed_order (granite_surface : Option String)
    (swapDim : ResourceDimensions) (depthFormat : VkFormat) :
    on_swapchain_changed granite_surface swapDim depthFormat =
      GraphOp.reset ::
        GraphOp.setBackbufferDimensions swapDim ::
          GraphOp.setBackbufferSource (backbuffer_source_name granite_surface) ::
            (swapchain_declaration_ops depthFormat ++ [GraphOp.bake, GraphOp.log]) ∧
    (∀ op ∈ swapchain_declaration_ops depthFormat, op.isDeclaration = true) ∧
    GraphOp.reset ∉
      GraphOp.setBackbufferDimensions swapDim ::
        GraphOp.setBackbufferSource (backbuffer_source_name granite_surface) ::
          (swapchain_declaration_ops depthFormat ++ [GraphOp.bake, GraphOp.log]) ∧
    GraphOp.bake ∉
      GraphOp.reset ::
        GraphOp.setBackbufferDimensions swapDim ::
          GraphOp.setBackbufferSource (backbuffer_source_name granite_surface) ::
            swapchain_declaration_ops depthFormat := by
  refine ⟨rfl, ?_, ?_, ?_⟩
  · intro op hop
    simp only [swapchain_declaration_ops, List.mem_cons, List.not_mem_nil, or_false] at hop
    rcases hop with h | h | h | h | h | h | h | h | h | h | h | h | h | h | h | h | h | h |
      h <;> subst h <;> rfl
  · simp [swapchain_declaration_ops]
  · simp [swapchain_declaration_ops]

/-- Witness for C6: the first declared operation of the handler really is a
declaration. -/
theorem on_swapchain_changed_order_witness :
    GraphOp.isDeclaration (GraphOp.addPass "gbuffer" VK_PIPELINE_STAGE_ALL_GRAPHICS_BIT) =
      true :=
  (on_swapchain_changed_order none
      { width := 1280, height := 720, format := VkFormat.R8G8B8A8_SRGB }
      VkFormat.UNDEFINED).2.1
    (GraphOp.addPass "gbuffer" VK_PIPELINE_STAGE_ALL_GRAPHICS_BIT)
    (by simp [swapchain_declaration_ops])

/-- C7: in every rendered frame, setup_attachments is invoked with the device
and its current swap-chain view at step 10 of the frame trace, strictly before
enqueue_render_passes on the same device at step 11; both are present in every
frame trace and neither ever carries a different device or view. -/
theorem render_frame_order (device view : Nat) :
    (render_frame device view)[10]? = some (FrameOp.setupAttachments device view) ∧
    (render_frame device view)[11]? = some (FrameOp.enqueueRenderPasses device) ∧
    (render_frame device view).length = 12 ∧
    (∀ d v, FrameOp.setupAttachments d v ∈ render_frame device view →
      d = device ∧ v = view) ∧
    (∀ d, FrameOp.enqueueRenderPasses d ∈ render_frame device view → d = device) := by
  refine ⟨rfl, rfl, rfl, ?_, ?_⟩
  · intro d v hmem
    simp [render_frame] at hmem
    exact hmem
  · intro d hmem
    simp [render_frame] at hmem
    exact hmem

/-- Witness for C7 at a concrete device and view identifier. -/
theorem render_frame_order_witness : (5 : Nat) = 5 ∧ (7 : Nat) = 7 :=
  (render_frame_order 5 7).2.2.2.1 5 7 (by simp [render_frame])

/-- A pass is ready exactly when no declared edge targets it from a pass that
is still unscheduled. -/
theorem isReady_iff (deps : List (Nat × Nat)) (remaining : List Nat) (v : Nat) :
    isReady deps remaining v = true ↔ ∀ e ∈ deps, e.2 = v → e.1 ∉ remaining := by
  simp only [isReady, List.all_eq_true, Bool.not_eq_true', Bool.and_eq_false_iff,
    beq_eq_false_iff_ne, ne_eq, Prod.forall, List.contains, List.elem_eq_mem,
    decide_eq_false_iff_not]
  constructor
  · intro h a b hab hb ha
    rcases h a b hab with h1 | h1
    · exact h1 hb
    · exact h1 ha
  · intro h a b hab
    by_cases hb : b = v
    · exact Or.inr (h a b hab hb)
    · exact Or.inl hb

/-- Transitive dependency chains between bounded passes project to transitive
dependency chains on the raw indices. -/
theorem transGen_fin_lift (deps : List (Nat × Nat)) (n : Nat) (a b : Fin n)
    (h : Relation.TransGen (fun x y : Fin n => depRel deps x.1 y.1) a b) :
    Relation.TransGen (depRel deps) a.1 b.1 := by
  induction h with
  | single h1 => exact Relation.TransGen.single h1
  | tail _ h1 ih => exact Relation.TransGen.tail ih h1

/-- In an acyclic dependency list, every nonempty set of unscheduled passes
bounded by the pass count contains a ready pass. -/
theorem exists_ready_of_acyclic (deps : List (Nat × Nat)) (n : Nat)
    (hWF : ∀ e ∈ deps, e.1 < n) (hacyc : AcyclicDeps deps)
    (remaining : List Nat) (hsub : ∀ v ∈ remaining, v < n) (hne : remaining ≠ []) :
    ∃ v ∈ remaining, isReady deps remaining v = true := by
  have htrans : IsTrans (Fin n) (Relation.TransGen (fun x y : Fin n => depRel deps x.1 y.1)) :=
    ⟨fun _ _ _ => Relation.TransGen.trans⟩
  have hirr : IsIrrefl (Fin n) (Relation.TransGen (fun x y : Fin n => depRel deps x.1 y.1)) :=
    ⟨fun a ha => hacyc a.1 (transGen_fin_lift deps n a a ha)⟩
  have hwfT : WellFounded (Relation.TransGen (fun x y : Fin n => depRel deps x.1 y.1)) :=
    Finite.wellFounded_of_trans_of_irrefl _
  have hwf : WellFounded (fun x y : Fin n => depRel deps x.1 y.1) := by
    refine Subrelation.wf ?_ hwfT
    intro x y h
    exact Relation.TransGen.single h
  obtain ⟨v0, hv0⟩ := List.exists_mem_of_ne_nil remaining hne
  obtain ⟨m, hm, hmin⟩ := hwf.has_min { x : Fin n | x.1 ∈ remaining }
    ⟨⟨v0, hsub v0 hv0⟩, hv0⟩
  refine ⟨m.1, hm, ?_⟩
  rw [isReady_iff]
  intro e he h2 h1
  refine hmin ⟨e.1, hWF e he⟩ h1 ?_
  show depRel deps e.1 m.1
  have hpair : (e.1, m.1) = e := by rw [← h2]
  rw [depRel, hpair]
  exact he

/-- On an acyclic, bounded dependency list the scheduling loop succeeds given
fuel covering the unscheduled passes. -/
theorem scheduleFuel_isSome (deps : List (Nat × Nat)) (n : Nat)
    (hWF : ∀ e ∈ deps, e.1 < n ∧ e.2 < n) (hacyc : AcyclicDeps deps) :
    ∀ fuel remaining, remaining.length ≤ fuel → (∀ v ∈ remaining, v < n) →
      (scheduleFuel deps fuel remaining).isSome = true := by
  intro fuel
  induction fuel with
  | zero =>
    intro remaining hlen _
    have hnil : remaining = [] := List.eq_nil_of_length_eq_zero (Nat.le_zero.mp hlen)
    simp [scheduleFuel, hnil]
  | succ f ih =>
    intro remaining hlen hsub
    by_cases hrem : remaining = []
    · simp [scheduleFuel, hrem]
    · obtain ⟨v, hv, hready⟩ := exists_ready_of_acyclic deps n (fun e he => (hWF e he).1)
        hacyc remaining hsub hrem
      have hpick : (pickReady deps remaining).isSome = true := by
        rw [pickReady, List.find?_isSome]
        exact ⟨v, hv, hready⟩
      obtain ⟨w, hw⟩ := Option.isSome_iff_exists.mp hpick
      have hwmem : w ∈ remaining := by
        rw [pickReady] at hw
        exact List.mem_of_find?_eq_some hw
      have hlen' : (remaining.erase w).length ≤ f := by
        rw [List.length_erase_of_mem hwmem]
        have hpos : 0 < remaining.length := List.length_pos.mpr hrem
        omega
      have hsub' : ∀ x ∈ remaining.erase w, x < n := fun x hx =>
        hsub x (List.mem_of_mem_erase hx)
      simp only [scheduleFuel, hrem, if_false, hw]
      simpa using ih (remaining.erase w) hlen' hsub'

/-- The scheduling loop emits each unscheduled pass exactly once: its output is
a permutation of the remaining passes. -/
theorem scheduleFuel_perm (deps : List (Nat × Nat)) :
    ∀ fuel remaining order, scheduleFuel deps fuel remaining = some order →
      order.Perm remaining := by
  intro fuel
  induction fuel with
  | zero =>
    intro remaining order h
    by_cases hrem : remaining = []
    · subst hrem
      simp [scheduleFuel] at h
      subst h
      rfl
    · simp [scheduleFuel, hrem] at h
  | succ f ih =>
    intro remaining order h
    by_cases hrem : remaining = []
    · subst hrem
      simp [scheduleFuel] at h
      subst h
      rfl
    · simp only [scheduleFuel, hrem, if_false] at h
      cases hp : pickReady deps remaining with
      | none => rw [hp] at h; cases h
      | some v =>
        rw [hp] at h
        rw [Option.map_eq_some'] at h
        obtain ⟨rest, hrest, horder⟩ := h
        have hmem : v ∈ remaining := by
          rw [pickReady] at hp
          exact List.mem_of_find?_eq_some hp
        subst horder
        exact ((ih _ rest hrest).cons v).trans (List.perm_cons_erase hmem).symm

/-- The scheduling loop's output respects every declared edge between two
still-unscheduled passes: the producer is placed strictly before the
consumer. -/
theorem scheduleFuel_respects (deps : List (Nat × Nat)) :
    ∀ fuel remaining order, scheduleFuel deps fuel remaining = some order →
      ∀ e ∈ deps, e.1 ∈ remaining → e.2 ∈ remaining →
        order.indexOf e.1 < order.indexOf e.2 := by
  intro fuel
  induction fuel with
  | zero =>
    intro remaining order h e he h1 h2
    by_cases hrem : remaining = []
    · subst hrem
      cases h1
    · simp [scheduleFuel, hrem] at h
  | succ f ih =>
    intro remaining order h e he h1 h2
    by_cases hrem : remaining = []
    · subst hrem
      cases h1
    · simp only [scheduleFuel, hrem, if_false] at h
      cases hp : pickReady deps remaining with
      | none => rw [hp] at h; cases h
      | some v =>
        rw [hp] at h
        rw [Option.map_eq_some'] at h
        obtain ⟨rest, hrest, horder⟩ := h
        subst horder
        rw [pickReady] at hp
        have hready := List.find?_some hp
        rw [isReady_iff] at hready
        have hv2 : e.2 ≠ v := fun hh => hready e he hh h1
        by_cases hv1 : e.1 = v
        · subst hv1
          rw [List.indexOf_cons_self, List.indexOf_cons_ne rest (Ne.symm hv2)]
          exact Nat.succ_pos _
        · have h1' : e.1 ∈ remaining.erase v := (List.mem_erase_of_ne hv1).mpr h1
          have h2' : e.2 ∈ remaining.erase v := (List.mem_erase_of_ne hv2).mpr h2
          have hlt := ih (remaining.erase v) rest hrest e he h1' h2'
          rw [List.indexOf_cons_ne rest (Ne.symm hv1), List.indexOf_cons_ne rest (Ne.symm hv2)]
          exact Nat.succ_lt_succ hlt

/-- A dependency list whose edges all increase the pass index is acyclic. -/
theorem acyclicDeps_of_increasing (deps : List (Nat × Nat))
    (h : ∀ e ∈ deps, e.1 < e.2) : AcyclicDeps deps := by
  intro v hv
  have hmono : ∀ a b, Relation.TransGen (depRel deps) a b → a < b := by
    intro a b hab
    induction hab with
    | single h1 => exact h _ h1
    | tail _ h1 ih => exact ih.trans (h _ h1)
  exact absurd (hmono v v hv) (lt_irrefl v)

/-- C5: for every well-formed graph whose declared dependencies contain no
cycle, bake succeeds and the resulting pass order is a topological sort of the
declared dependencies over the declared passes; the order is uniquely
determined by the declarations, so re-baking with unchanged declarations
reproduces the identical order. -/
theorem bake_topological_sort (g : SpecGraph)
    (hWF : ∀ e ∈ g.deps, e.1 < g.passCount ∧ e.2 < g.passCount)
    (hacyc : AcyclicDeps g.deps) :
    ∃ order, bake g = some order ∧
      order.Perm (List.range g.passCount) ∧
      (∀ e ∈ g.deps, order.indexOf e.1 < order.indexOf e.2) ∧
      (∀ order2, bake g = some order2 → order2 = order) := by
  have hsub : ∀ v ∈ List.range g.passCount, v < g.passCount := fun v hv =>
    List.mem_range.mp hv
  have hlen : (List.range g.passCount).length ≤ g.passCount := by simp
  have hsome : (bake g).isSome = true :=
    scheduleFuel_isSome g.deps g.passCount hWF hacyc g.passCount _ hlen hsub
  obtain ⟨order, horder⟩ := Option.isSome_iff_exists.mp hsome
  refine ⟨order, horder, scheduleFuel_perm g.deps _ _ _ horder, ?_, ?_⟩
  · intro e he
    exact scheduleFuel_respects g.deps _ _ _ horder e he
      (List.mem_range.mpr (hWF e he).1) (List.mem_range.mpr (hWF e he).2)
  · intro order2 h2
    rw [horder] at h2
    exact (Option.some.inj h2).symm

/-- Witness for C5 on a 3-pass graph where pass 2 consumes the outputs of
passes 0 and 1. -/
theorem bake_topological_sort_witness :
    ∃ order,
      bake { passCount := 3, deps := [(0, 2), (1, 2)] } = some order ∧
      order.Perm (List.range 3) ∧
      (∀ e ∈ (SpecGraph.mk 3 [(0, 2), (1, 2)]).deps,
        order.indexOf e.1 < order.indexOf e.2) ∧
      (∀ order2, bake { passCount := 3, deps := [(0, 2), (1, 2)] } = some order2 →
        order2 = order) :=
  bake_topological_sort { passCount := 3, deps := [(0, 2), (1, 2)] }
    (by decide)
    (acyclicDeps_of_increasing _ (by decide))

end Granite
